import Mathlib

/-
  Verification of the Task Execution & Skill-Routing Engine of the
  chat-nasc-a2a repository.

  Shallow embedding of:
  - src/nai_a2a/executor.py      (NAIAgentExecutor: execute, cancel, the
    native-skill dispatch, the except-chain of error handlers, and the
    event emissions they perform)
  - src/nai_a2a/exceptions.py    (the NAIError hierarchy, embedded as PyExc)
  - src/nai_a2a/session/postgres_store.py (PostgresTaskStore: save / get /
    cleanup_old_tasks over an explicit list of rows)

  Conventions of the embedding:
  - Python exceptions become the inductive PyExc; `raise` becomes returning
    or propagating a PyExc value; `try/except` becomes a match.
  - JSON-like metadata values become the inductive JVal; Python truthiness
    becomes JVal.truthy.
  - Event enqueueing (event_queue.enqueue_event) becomes appending to a
    List Event; the events fully record taskId / contextId / final / state /
    message text.  Timestamp payloads inside status metadata (datetime.utcnow)
    are not representable purely and are omitted from the Event type; no
    property below depends on them.
  - External collaborators (the native skill implementations' HTTP calls and
    the ADK fallback agent's stream) are oracle parameters in Env: the
    dispatcher only observes "returned a displayable result" or "raised",
    respectively the list of streamed chunks and an optional raised error.
-/

namespace NaiA2A

/-- JSON-like value, the type of message/task metadata entries. -/
inductive JVal where
  | null
  | bool (b : Bool)
  | num (n : Int)
  | str (s : String)
  | arr (xs : List JVal)
  | obj (fields : List (String × JVal))

/-- Python truthiness of a JSON-like value: None, False, 0, "", [], {} are falsy. -/
def JVal.truthy : JVal → Bool
  | .null => false
  | .bool b => b
  | .num n => !(n == 0)
  | .str s => !(s == "")
  | .arr xs => !xs.isEmpty
  | .obj fs => !fs.isEmpty

/-- Task lifecycle states (a2a.types.TaskState, restricted to the members this
repository uses, plus `unknown` which postgres_store.save can write). -/
inductive TaskState where
  | submitted
  | working
  | input_required
  | completed
  | canceled
  | failed
  | unknown
deriving DecidableEq, Repr

/-- The string value of each TaskState enum member (a2a.types.TaskState values). -/
def TaskState.value : TaskState → String
  | .submitted => "submitted"
  | .working => "working"
  | .input_required => "input-required"
  | .completed => "completed"
  | .canceled => "canceled"
  | .failed => "failed"
  | .unknown => "unknown"

/-- TaskState(s): parsing a state string back to the enum; none models the
ValueError raised on an unrecognized string. -/
def parseTaskState (s : String) : Option TaskState :=
  if s = "submitted" then some .submitted
  else if s = "working" then some .working
  else if s = "input-required" then some .input_required
  else if s = "completed" then some .completed
  else if s = "canceled" then some .canceled
  else if s = "failed" then some .failed
  else if s = "unknown" then some .unknown
  else none

/-- Terminal states per the state machine (spec section 4.3 and glossary). -/
def TaskState.isTerminal : TaskState → Bool
  | .completed => true
  | .failed => true
  | .canceled => true
  | _ => false

/-- An event published to the per-request EventQueue by the executor.
`task` is the task-creation event (a2a.types.Task has no final flag),
`status` is a TaskStatusUpdateEvent, `message` an agent text message. -/
inductive Event where
  | task (id : String) (contextId : String) (state : TaskState)
  | status (taskId : String) (contextId : String) (final : Bool) (state : TaskState)
  | message (text : String)
deriving DecidableEq, Repr

/-- The final flag of an event; task-creation and message events carry none. -/
def Event.isFinal : Event → Bool
  | .status _ _ f _ => f
  | _ => false

/-- The contextId carried by an event, when it carries one. -/
def Event.ctxOf : Event → Option String
  | .task _ c _ => some c
  | .status _ c _ _ => some c
  | .message _ => none

/-- Number of events with final = true in a stream. -/
def finalCount (evs : List Event) : Nat :=
  (evs.filter Event.isFinal).length

/-- One part of an inbound A2A message: a TextPart or a DataPart (binary
attachment; its payload is irrelevant to every property below). -/
inductive MsgPart where
  | text (s : String)
  | data

/-- An inbound A2A message: optional metadata map and a list of parts. -/
structure MessageIn where
  metadata : Option (List (String × JVal)) := none
  parts : List MsgPart := []

/-- RequestContext, the fields the executor reads: message, task_id, context_id. -/
structure RequestContext where
  message : Option MessageIn := none
  taskId : Option String := none
  contextId : Option String := none

/-- Python truthiness of `context.task_id` (None or empty string is falsy). -/
def taskIdTruthy (ctx : RequestContext) : Option String :=
  match ctx.taskId with
  | some t => if t = "" then none else some t
  | none => none

/-- `context.context_id or context.task_id` as used in every status-update
emission (the Python `or` falls through on falsy, i.e. None or empty, values). -/
def ctxIdFallback (ctx : RequestContext) (tid : String) : String :=
  match ctx.contextId with
  | some c => if c = "" then tid else c
  | none => tid

/-- `context.message.metadata` guarded by the truthiness checks
`if context.message and context.message.metadata` (empty dict is falsy). -/
def msgMeta (ctx : RequestContext) : Option (List (String × JVal)) :=
  match ctx.message with
  | some m =>
    match m.metadata with
    | some md => if md.isEmpty then none else some md
    | none => none
  | none => none

/-- `context.message.metadata.get(key)` under the msgMeta guard. -/
def metaGet (ctx : RequestContext) (key : String) : Option JVal :=
  (msgMeta ctx).bind (fun md => md.lookup key)

/-- NAIAgentExecutor._extract_skill_name: the truthy "skill" metadata value, if
any.  The value is kept as a JVal: a non-string value compares unequal to every
registered skill name downstream, exactly like in the source. -/
def extractSkillName (ctx : RequestContext) : Option JVal :=
  match metaGet ctx "skill" with
  | some v => if v.truthy then some v else none
  | none => none

/-- String-valued metadata entry with default "" (used for "search_term" and
"content"; a non-string value is treated as the default). -/
def strMetaGet (ctx : RequestContext) (key : String) : String :=
  match metaGet ctx key with
  | some (.str s) => s
  | _ => ""

/-- First part whose `part.get("text")` is truthy (the `for part in parts`
loops of _execute_native_skill, which break at the first truthy text). -/
def firstTruthyText (parts : List MsgPart) : Option String :=
  match parts with
  | [] => none
  | .text s :: rest => if s = "" then firstTruthyText rest else some s
  | .data :: rest => firstTruthyText rest

/-- The generated fallback identity of _extract_user_id:
`f"a2a_{context.context_id}" if context.context_id else f"a2a_{context.task_id or id(context)}"`.
`id(context)` (a CPython object address) is abstracted as the fixed string "obj". -/
def genUserId (ctx : RequestContext) : String :=
  match ctx.contextId with
  | some c => if c = "" then "a2a_" ++ ((taskIdTruthy ctx).getD "obj") else "a2a_" ++ c
  | none => "a2a_" ++ ((taskIdTruthy ctx).getD "obj")

/-- NAIAgentExecutor._extract_user_id: the truthy "user_id" metadata value,
else the generated fallback identity. -/
def extractUserId (ctx : RequestContext) : String :=
  match metaGet ctx "user_id" with
  | some (.str s) => if s = "" then genUserId ctx else s
  | _ => genUserId ctx

/-
  Exceptions (src/nai_a2a/exceptions.py) and the except-chain of
  NAIAgentExecutor.execute (src/nai_a2a/executor.py lines 173-186), i.e. the
  Error Classifier.  Note executor.py does NOT import ValidationError, so the
  three `raise ValidationError(...)` statements in _execute_native_skill raise
  NameError at runtime; PyExc.nameErr models that.
-/

/-- An exception value as observed by the executor's except-chain. -/
inductive PyExc where
  | userNotFound (userId : String)
  | profileIncomplete (missing : List String) (operation : String)
  | externalAPI (service : String) (statusCode : Option Nat)
  | databaseConn (operation : String)
  | skillNotFound (skillName : String)
  | validation (msg : String)
  | naiOther (msg : String)
  | nameErr (missingName : String)
  | other (descr : String)
deriving DecidableEq, Repr

/-- ASCII apostrophe, used in the skill-not-found user message. -/
def apos : String := String.singleton (Char.ofNat 39)

/-- User message of _handle_user_not_found. -/
def userNotFoundMsg : String :=
  "Não encontrei seu perfil cadastrado. Vamos criar um novo perfil? Me conte sobre sua experiência profissional, formação e objetivos de carreira."

/-- User message of _handle_profile_incomplete. -/
def profileIncompleteMsg (missing : List String) (operation : String) : String :=
  "Seu perfil está incompleto para " ++ operation ++ ". Preciso das seguintes informações: " ++ String.intercalate ", " missing ++ ". Por favor, me forneça esses dados para continuar."

/-- User message of _handle_external_api_error, chosen from status_code. -/
def externalApiMsg (service : String) (statusCode : Option Nat) : String :=
  match statusCode with
  | some c =>
    if c ≥ 500 then
      "O serviço " ++ service ++ " está temporariamente indisponível. Por favor, tente novamente em alguns minutos."
    else if c = 404 then
      "Não encontrei a informação solicitada no serviço " ++ service ++ ". Verifique os dados e tente novamente."
    else
      "Erro ao acessar o serviço " ++ service ++ ". Nossa equipe foi notificada e está trabalhando na solução."
  | none =>
    "Erro ao acessar o serviço " ++ service ++ ". Nossa equipe foi notificada e está trabalhando na solução."

/-- User message of _handle_database_error. -/
def databaseErrMsg : String :=
  "Estamos com problemas técnicos temporários. Por favor, tente novamente em alguns instantes. Se o problema persistir, entre em contato com o suporte."

/-- User message of _handle_skill_not_found. -/
def skillUnavailableMsg (skillName : String) : String :=
  "A funcionalidade " ++ apos ++ skillName ++ apos ++ " não está disponível. Por favor, verifique o nome da função ou consulte a lista de funcionalidades disponíveis."

/-- User message of _handle_generic_error (the default, unrecognized-exception
handler). -/
def genericErrorMsg : String :=
  "Desculpe, ocorreu um erro inesperado. Nossa equipe foi notificada e está trabalhando para resolver. Por favor, tente novamente mais tarde."

/-- The NAIError.message attribute of a ValidationError (exceptions.py). -/
def validationErrMsg (msg : String) : String :=
  "Erro de validação: " ++ msg

/-- The Error Classifier: the except-chain of execute maps every exception to
exactly one handler; each handler emits one user message and passes one state
argument to _update_task_error ("failed", "waiting_for_input" or
"waiting_for_profile").  Subclass handlers precede the NAIError handler in the
source, so ValidationError (were it raisable) reaches the NAIError handler;
NameError and every other unrecognized type reach _handle_generic_error.
Total by construction and, being a pure function, it never throws. -/
def classify : PyExc → String × String
  | .userNotFound _ => (userNotFoundMsg, "waiting_for_profile")
  | .profileIncomplete missing operation => (profileIncompleteMsg missing operation, "waiting_for_input")
  | .externalAPI service statusCode => (externalApiMsg service statusCode, "failed")
  | .databaseConn _ => (databaseErrMsg, "failed")
  | .skillNotFound s => (skillUnavailableMsg s, "failed")
  | .validation m => (validationErrMsg m, "failed")
  | .naiOther m => (m, "failed")
  | .nameErr _ => (genericErrorMsg, "failed")
  | .other _ => (genericErrorMsg, "failed")

/-- _update_task_error: `TaskState.failed if state == "failed" else TaskState.input_required`. -/
def errStateOf (stateArg : String) : TaskState :=
  if stateArg = "failed" then .failed else .input_required

/-- _update_task_error's emission: one final status update, only when the
request carries a (truthy) task id. -/
def updateTaskError (ctx : RequestContext) (stateArg : String) : List Event :=
  match taskIdTruthy ctx with
  | some tid => [.status tid (ctxIdFallback ctx tid) true (errStateOf stateArg)]
  | none => []

/-- The full emission of the handler an exception is dispatched to: one
human-readable message followed by _update_task_error's final status update. -/
def errorEvents (ctx : RequestContext) (e : PyExc) : List Event :=
  .message (classify e).1 :: updateTaskError ctx (classify e).2

/-
  The dispatcher: NAIAgentExecutor.execute / cancel and their helpers.
-/

/-- Outcome of one native skill implementation's `execute` call (an external
HTTP collaborator): either a displayable result text (the output of the
skill's formatting helper, respectively result["message"]) or a raised error. -/
inductive SkillOutcome where
  | ok (display : String)
  | exn (e : PyExc)

/-- The oracle environment: module state and external collaborators. -/
structure Env where
  /-- NATIVE_SKILLS_AVAILABLE, the module-level import flag. -/
  nativeAvailable : Bool
  /-- Outcome of `skill.execute(...)` for a given skill name and user id. -/
  skillRun : String → String → SkillOutcome
  /-- The text chunks the ADK fallback agent streams (runner.run_async). -/
  adkChunks : List String
  /-- An error raised by session setup or the ADK agent, after the chunks. -/
  adkRaise : Option PyExc

/-- Result of _execute_native_skill: handled successfully (True), no native
implementation (False, fall back to ADK), or an exception propagating to the
except-chain; evs are the events already enqueued by the branch. -/
inductive NativeOutcome where
  | success (evs : List Event)
  | fellThrough
  | raised (evs : List Event) (e : PyExc)

/-- _create_task: the task-creation event, emitted only when a (truthy)
task id is present; it uses the task id as its contextId
("Using task_id as context_id for now"). -/
def createEvents (ctx : RequestContext) : List Event :=
  match taskIdTruthy ctx with
  | some tid => [.task tid tid .working]
  | none => []

/-- _update_task_completed / the final status of _handle_response: a final
completed status update, emitted only when a task id is present; its contextId
is `context.context_id or context.task_id`. -/
def finalCompleted (ctx : RequestContext) : List Event :=
  match taskIdTruthy ctx with
  | some tid => [.status tid (ctxIdFallback ctx tid) true .completed]
  | none => []

/-- The common shape of every registered branch of _execute_native_skill:
create the task (if a task id is present), run the input prechecks (which may
raise), call the skill, emit its displayable result as a message, and emit the
final completed status.  A raised exception propagates with the events already
enqueued. -/
def runRegistered (ctx : RequestContext) (precheck : Option PyExc) (run : SkillOutcome) : NativeOutcome :=
  let created := createEvents ctx
  match precheck with
  | some e => .raised created e
  | none =>
    match run with
    | .exn e => .raised created e
    | .ok display => .success (created ++ [.message display] ++ finalCompleted ctx)

/-- profile_data for save_user_profile: `metadata.get("profile_data", {})`. -/
def profileData (ctx : RequestContext) : JVal :=
  (metaGet ctx "profile_data").getD (.obj [])

/-- Substring containment, `needle in s` for strings. -/
def containsSub (s needle : String) : Bool :=
  (s.splitOn needle).length ≥ 2

/-- `s.split(needle, 1)[1]`: everything after the first occurrence. -/
def afterFirst (s needle : String) : String :=
  String.intercalate needle ((s.splitOn needle).tail)

/-- The search-term extraction of the retrieve_vacancy branch from a message
text: lowercase, split after the first marker phrase, strip. -/
def extractAfterMarkers (t : String) : String :=
  let lt := t.toLower
  if containsSub lt "buscar vagas" then (afterFirst lt "buscar vagas").trim
  else if containsSub lt "vagas de" then (afterFirst lt "vagas de").trim
  else if containsSub lt "vagas para" then (afterFirst lt "vagas para").trim
  else ""

/-- search_term of the retrieve_vacancy branch: the "search_term" metadata
entry, else extracted from the first truthy text part. -/
def vacancyTerm (ctx : RequestContext) : String :=
  let st := strMetaGet ctx "search_term"
  if st = "" then
    match ctx.message with
    | some m =>
      match firstTruthyText m.parts with
      | some t => extractAfterMarkers t
      | none => ""
    | none => ""
  else st

/-- content of the update_state branch: the "content" metadata entry, else the
first truthy text part. -/
def updateContent (ctx : RequestContext) : String :=
  let c := strMetaGet ctx "content"
  if c = "" then
    match ctx.message with
    | some m => (firstTruthyText m.parts).getD ""
    | none => ""
  else c

/-- The registered native skill names, i.e. the branch guards of
_execute_native_skill ("find_job_matches" and "retrieve_match" share one
branch). -/
def isRegisteredName (s : String) : Prop :=
  s = "retrieve_user_profile" ∨ s = "save_user_profile" ∨ s = "find_job_matches" ∨
  s = "retrieve_match" ∨ s = "retrieve_vacancy" ∨ s = "update_state"

instance (s : String) : Decidable (isRegisteredName s) := by
  unfold isRegisteredName
  infer_instance

/-- The branch table of _execute_native_skill: for a registered skill name,
its input precheck (the `raise ValidationError(...)` statements, which at
runtime raise NameError because ValidationError is not imported) and the
skill-execution outcome; none for an unregistered name (the function returns
False). -/
def nativeDispatch (env : Env) (ctx : RequestContext) (s user : String) : Option (Option PyExc × SkillOutcome) :=
  if s = "retrieve_user_profile" then
    some (none, env.skillRun s user)
  else if s = "save_user_profile" then
    some ((if (profileData ctx).truthy then none else some (.nameErr "ValidationError")), env.skillRun s user)
  else if s = "find_job_matches" ∨ s = "retrieve_match" then
    some (none, env.skillRun s user)
  else if s = "retrieve_vacancy" then
    some ((if vacancyTerm ctx = "" then some (.nameErr "ValidationError") else none), env.skillRun s user)
  else if s = "update_state" then
    some ((if updateContent ctx = "" then some (.nameErr "ValidationError") else none), env.skillRun s user)
  else none

/-- _execute_native_skill: dispatch on the skill name; a non-string skill
value matches no branch and falls through, like an unregistered name. -/
def executeNativeSkill (env : Env) (ctx : RequestContext) (sv : JVal) (user : String) : NativeOutcome :=
  match sv with
  | .str s =>
    match nativeDispatch env ctx s user with
    | some (precheck, run) => runRegistered ctx precheck run
    | none => .fellThrough
  | _ => .fellThrough

/-- The rendering of the skill value inside the SkillNotFoundError message
(non-string metadata values are abstracted). -/
def skillRenderName : JVal → String
  | .str s => s
  | _ => "valor"

/-- `" ".join(text_parts)` over the TextParts of the message. -/
def userInputOf (m : MessageIn) : String :=
  String.intercalate " " (m.parts.filterMap (fun p => match p with | .text s => some s | .data => none))

/-- The skill_prompts table of _map_skill_to_prompt. -/
def promptFor (sv : JVal) (input : String) : Option String :=
  match sv with
  | .str s =>
    if s = "retrieve_user_profile" then some "mostre meu perfil completo"
    else if s = "save_user_profile" then some ("atualize meu perfil com: " ++ input)
    else if s = "find_job_matches" then some "encontre vagas compatíveis com meu perfil"
    else if s = "retrieve_vacancy" then some ("buscar vagas de " ++ input)
    else if s = "update_state" then some ("atualize meu perfil com: " ++ input)
    else if s = "analyze_skill_gaps" then some ("analise as lacunas de habilidades para: " ++ input)
    else if s = "recommend_courses" then some "recomende cursos para mim"
    else if s = "chat" then some input
    else none
  | _ => none

/-- _map_skill_to_prompt: none for a plain chat message (no truthy skill in the
metadata); for a skill invocation, the mapped prompt, raising
SkillNotFoundError when the table has no (truthy) prompt for the skill.  The
source re-implements the same truthy-metadata/truthy-skill extraction as
_extract_skill_name, so extractSkillName is reused here. -/
def mapSkillToPrompt (ctx : RequestContext) : Except PyExc (Option String) :=
  match ctx.message with
  | none => .ok none
  | some m =>
    match extractSkillName ctx with
    | none => .ok none
    | some sv =>
      match promptFor sv (userInputOf m) with
      | none => .error (.skillNotFound (skillRenderName sv))
      | some p => if p = "" then .error (.skillNotFound (skillRenderName sv)) else .ok (some p)

/-- Message enqueued by _handle_response when no response text was produced. -/
def emptyResponseMsg : String :=
  "Desculpe, não consegui gerar uma resposta. Por favor, reformule sua pergunta."

/-- The result of one execute call: the events enqueued, whether the ADK
fallback agent was run, and the registered native branch that ran, if any
(instrumentation fields recording which handler serviced the request). -/
structure ExecResult where
  events : List Event
  fallbackInvoked : Bool
  nativeHandled : Option String
deriving DecidableEq, Repr

/-- The ADK fallback path of execute: map the skill to a prompt (which may
raise SkillNotFoundError before anything is emitted), create the task, stream
every truthy chunk of the agent as a message (an agent error is classified by
the except-chain), then _handle_response: an apology message when no response
text was produced, and the final completed status update. -/
def runFallback (env : Env) (ctx : RequestContext) : ExecResult :=
  match mapSkillToPrompt ctx with
  | .error e => { events := errorEvents ctx e, fallbackInvoked := false, nativeHandled := none }
  | .ok _prompt =>
    match env.adkRaise with
    | some e =>
      { events := createEvents ctx
          ++ (env.adkChunks.filter (fun s => !(s == ""))).map Event.message
          ++ errorEvents ctx e,
        fallbackInvoked := true, nativeHandled := none }
    | none =>
      -- response_text is the last truthy chunk, or "" when there was none;
      -- _handle_response emits the apology exactly when it is "".
      { events := createEvents ctx
          ++ (env.adkChunks.filter (fun s => !(s == ""))).map Event.message
          ++ (if (((env.adkChunks.filter (fun s => !(s == ""))).getLast?).getD "") = ""
              then [Event.message emptyResponseMsg] else [])
          ++ finalCompleted ctx,
        fallbackInvoked := true, nativeHandled := none }

/-- NAIAgentExecutor.execute: extract the user id and skill name; when a skill
name is present and native skills are available, try the native branch —
returning on success, classifying a raised exception through the
except-chain, and falling back to the ADK agent only when no native
implementation exists; otherwise run the fallback path. -/
def execute (env : Env) (ctx : RequestContext) : ExecResult :=
  match extractSkillName ctx with
  | some sv =>
    if env.nativeAvailable then
      match executeNativeSkill env ctx sv (extractUserId ctx) with
      | .success evs =>
        { events := evs, fallbackInvoked := false, nativeHandled := some (skillRenderName sv) }
      | .raised evs e =>
        { events := evs ++ errorEvents ctx e, fallbackInvoked := false, nativeHandled := some (skillRenderName sv) }
      | .fellThrough => runFallback env ctx
    else runFallback env ctx
  | none => runFallback env ctx

/-- Confirmation message of cancel. -/
def cancelSuccessMsg : String := "A tarefa foi cancelada com sucesso."

/-- NAIAgentExecutor.cancel: when a (truthy) task id is present, emit a final
canceled status update, then always emit the confirmation message.  The
method consults no stored task state and performs no store write. -/
def cancel (ctx : RequestContext) : List Event :=
  (match taskIdTruthy ctx with
   | some tid => [.status tid (ctxIdFallback ctx tid) true .canceled]
   | none => []) ++ [.message cancelSuccessMsg]

/-
  PostgresTaskStore (src/nai_a2a/session/postgres_store.py).  The a2a_tasks
  table becomes a list of rows; timestamps are reduced to an age in whole days
  (the only use of created_at is the retention comparison of
  cleanup_old_tasks; save's upsert keeps created_at and refreshes updated_at,
  which no property below reads).
-/

/-- One message of Task.history as save serializes it:
`{"role": msg.role, "content": str(msg)}` (the str(msg) rendering is kept as
an opaque string). -/
structure HistMsg where
  role : String
  content : String

/-- a2a.types.TaskStatus: a state and optional metadata. -/
structure StatusRec where
  state : TaskState
  metadata : Option JVal := none

/-- The a2a.types.Task record as this repository uses it (executor.py
constructs Task(id=..., contextId=..., status=..., history=[]); save reads
task.status.state, task.history, task.metadata).  `result` and `error` are
not fields of the a2a Task model; save probes them with hasattr, so they are
modelled as optional dynamic attributes where none means the attribute is
absent. -/
structure A2ATask where
  id : String
  contextId : String
  status : StatusRec
  history : List HistMsg := []
  metadata : Option JVal := none
  result : Option JVal := none
  error : Option String := none

/-- A row of the a2a_tasks table. -/
structure Row where
  task_id : String
  state : String
  request : JVal
  metadata : Option JVal
  result : Option JVal
  error : Option String
  /-- Age of created_at in whole days (CURRENT_TIMESTAMP at insert). -/
  createdDaysAgo : Nat

/-- Truthiness of an optional value (absent is falsy). -/
def optTruthy : Option JVal → Bool
  | some v => v.truthy
  | none => false

/-- save's request serialization: "A2A tasks don't have request attribute, use
history instead"; an empty history serializes as the empty object. -/
def requestData (t : A2ATask) : JVal :=
  if t.history.isEmpty then .obj []
  else .obj [("messages", .arr (t.history.map (fun h => .obj [("role", .str h.role), ("content", .str h.content)])))]

/-- save's metadata column: task.metadata when truthy, else
task.status.metadata when truthy, else NULL. -/
def savedMetadata (t : A2ATask) : Option JVal :=
  if optTruthy t.metadata then t.metadata
  else if optTruthy t.status.metadata then t.status.metadata
  else none

/-- save's result column: task.result when present and truthy, else NULL. -/
def savedResult (t : A2ATask) : Option JVal :=
  if optTruthy t.result then t.result else none

/-- The row save writes for a task.  The state column gets
task.status.state.value (the 'unknown' fallback of the source is for objects
without a status attribute, which the Task model excludes). -/
def rowOfTask (t : A2ATask) : Row :=
  { task_id := t.id
    state := t.status.state.value
    request := requestData t
    metadata := savedMetadata t
    result := savedResult t
    error := t.error
    createdDaysAgo := 0 }

/-- PostgresTaskStore.save: a single transactional upsert keyed by task_id;
an update keeps the existing created_at. -/
def saveTask (db : List Row) (t : A2ATask) : List Row :=
  if db.any (fun r => r.task_id == t.id) then
    db.map (fun r => if r.task_id == t.id then { rowOfTask t with createdDaysAgo := r.createdDaysAgo } else r)
  else
    db ++ [rowOfTask t]

/-- The keyword arguments get passes to the Task constructor:
`Task(id=..., state=TaskState(row['state']), request=..., metadata=...)`. -/
structure TaskKwargs where
  id : Option String := none
  contextId : Option String := none
  status : Option StatusRec := none
  state : Option TaskState := none
  request : Option JVal := none
  metadata : Option JVal := none
  history : Option (List HistMsg) := none

/-- Modelled from the a2a SDK (an external dependency, so not under src/):
pydantic validation of the Task model.  id, contextId and status are required
fields (executor.py line 496 constructs Task with exactly id, contextId,
status, history); state and request are not fields of Task and are ignored.
Construction without contextId or status raises a validation error, modelled
as none. -/
def mkA2ATask (kw : TaskKwargs) : Option A2ATask :=
  match kw.id, kw.contextId, kw.status with
  | some i, some c, some st =>
    some { id := i, contextId := c, status := st, history := kw.history.getD [],
           metadata := kw.metadata }
  | _, _, _ => none

/-- get's row-to-Task conversion: parse the state string (TaskState(...) raises
ValueError on an unknown string), construct the Task from the row's columns,
then attach result and error when the columns are truthy.  Any raised
validation error is caught by get's except clause, modelled as none. -/
def rowToTask (r : Row) : Option A2ATask :=
  match parseTaskState r.state with
  | none => none
  | some _st =>
    match mkA2ATask { id := some r.task_id, state := some _st, request := some r.request,
                      metadata := some (r.metadata.getD (.obj [])) } with
    | none => none
    | some t =>
      some { t with result := if optTruthy r.result then r.result else none,
                    error := match r.error with
                             | some e => if e = "" then none else some e
                             | none => none }

/-- Outcome of a database operation: a value, or a raised driver error. -/
inductive DbResult (α : Type) where
  | ok (val : α)
  | err (msg : String)

/-- PostgresTaskStore.get given the outcome of its SELECT: the except clause
turns every query or conversion failure into None, a missing row is None, and
a found row goes through the row-to-Task conversion. -/
def getTaskR (q : DbResult (Option Row)) : Option A2ATask :=
  match q with
  | .err _ => none
  | .ok none => none
  | .ok (some r) => rowToTask r

/-- PostgresTaskStore.get over an in-memory table (the successful-query case,
keyed lookup on task_id). -/
def getTask (db : List Row) (tid : String) : Option A2ATask :=
  getTaskR (.ok (db.find? (fun r => r.task_id == tid)))

/-- The state strings the cleanup DELETE filters on — note 'cancelled'
(double L), which is not the stored value TaskState.canceled.value. -/
def cleanupStates : List String := ["completed", "failed", "cancelled"]

/-- The WHERE clause of cleanup_old_tasks: created_at strictly older than the
retention window and state among the listed strings. -/
def cleanupMatches (days : Nat) (r : Row) : Bool :=
  decide (r.createdDaysAgo > days) && cleanupStates.contains r.state

/-- PostgresTaskStore.cleanup_old_tasks: delete the matching rows and return
the remaining table together with the number of rows removed (cur.rowcount). -/
def cleanupOldTasks (days : Nat) (db : List Row) : List Row × Nat :=
  ((db.filter (fun r => !(cleanupMatches days r))), (db.filter (cleanupMatches days)).length)

/-
  Helper lemmas: the uniform shape of every emission path of execute.
  Every status-update emission in the executor carries final = true, and the
  only other events are the task-creation event and text messages; the shape
  lemma below states that execute's stream, whenever a task id is present, is
  a list of such non-final events followed by exactly one final status update.
-/

/-- An event that may precede the final status update: the task-creation
event (with taskId as contextId) or a text message. -/
def preEvent (tid : String) (e : Event) : Prop :=
  e = Event.task tid tid .working ∨ ∃ s, e = Event.message s

theorem preEvent_not_final {tid : String} {e : Event} (h : preEvent tid e) :
    e.isFinal = false := by
  rcases h with rfl | ⟨s, rfl⟩ <;> rfl

theorem preEvent_ctx {tid : String} {e : Event} (h : preEvent tid e) :
    e.ctxOf = none ∨ e.ctxOf = some tid := by
  rcases h with rfl | ⟨s, rfl⟩
  · exact Or.inr rfl
  · exact Or.inl rfl

theorem createEvents_eq {ctx : RequestContext} {tid : String}
    (h : taskIdTruthy ctx = some tid) :
    createEvents ctx = [Event.task tid tid .working] := by
  unfold createEvents
  rw [h]

theorem finalCompleted_eq {ctx : RequestContext} {tid : String}
    (h : taskIdTruthy ctx = some tid) :
    finalCompleted ctx = [Event.status tid (ctxIdFallback ctx tid) true .completed] := by
  unfold finalCompleted
  rw [h]

theorem updateTaskError_eq {ctx : RequestContext} {tid : String}
    (h : taskIdTruthy ctx = some tid) (arg : String) :
    updateTaskError ctx arg = [Event.status tid (ctxIdFallback ctx tid) true (errStateOf arg)] := by
  unfold updateTaskError
  rw [h]

theorem errorEvents_eq {ctx : RequestContext} {tid : String}
    (h : taskIdTruthy ctx = some tid) (e : PyExc) :
    errorEvents ctx e = [Event.message (classify e).1,
      Event.status tid (ctxIdFallback ctx tid) true (errStateOf (classify e).2)] := by
  unfold errorEvents
  rw [updateTaskError_eq h]

theorem createEvents_pre {ctx : RequestContext} {tid : String}
    (h : taskIdTruthy ctx = some tid) :
    ∀ e ∈ createEvents ctx, preEvent tid e := by
  rw [createEvents_eq h]
  intro e he
  rw [List.mem_singleton] at he
  subst he
  exact Or.inl rfl

theorem mapMessage_pre (tid : String) (l : List String) :
    ∀ e ∈ l.map Event.message, preEvent tid e := by
  intro e he
  rcases List.mem_map.mp he with ⟨s, _, rfl⟩
  exact Or.inr ⟨s, rfl⟩

theorem ifMessage_pre (tid : String) (c : Prop) [Decidable c] (m : String) :
    ∀ e ∈ (if c then [Event.message m] else []), preEvent tid e := by
  intro e he
  split at he
  · rw [List.mem_singleton] at he
    subst he
    exact Or.inr ⟨m, rfl⟩
  · exact absurd he (List.not_mem_nil e)

theorem executeNativeSkill_cases (env : Env) (ctx : RequestContext) (sv : JVal) (user : String) :
    executeNativeSkill env ctx sv user = .fellThrough ∨
    ∃ p r, executeNativeSkill env ctx sv user = runRegistered ctx p r := by
  cases sv with
  | str s =>
    have hmatch : executeNativeSkill env ctx (.str s) user
        = match nativeDispatch env ctx s user with
          | some (precheck, run) => runRegistered ctx precheck run
          | none => NativeOutcome.fellThrough := rfl
    cases hd : nativeDispatch env ctx s user with
    | none =>
      refine Or.inl ?_
      rw [hmatch, hd]
    | some pr =>
      obtain ⟨p1, p2⟩ := pr
      refine Or.inr ⟨p1, p2, ?_⟩
      rw [hmatch, hd]
  | null => exact Or.inl rfl
  | bool b => exact Or.inl rfl
  | num n => exact Or.inl rfl
  | arr xs => exact Or.inl rfl
  | obj fs => exact Or.inl rfl

theorem runRegistered_shape (ctx : RequestContext) (p : Option PyExc) (r : SkillOutcome) :
    (∃ e, runRegistered ctx p r = .raised (createEvents ctx) e) ∨
    (∃ txt, runRegistered ctx p r = .success (createEvents ctx ++ [Event.message txt] ++ finalCompleted ctx)) := by
  unfold runRegistered
  cases p with
  | some e => exact Or.inl ⟨e, rfl⟩
  | none =>
    cases r with
    | exn e => exact Or.inl ⟨e, rfl⟩
    | ok d => exact Or.inr ⟨d, rfl⟩

theorem runFallback_shape (env : Env) (ctx : RequestContext) {tid : String}
    (h : taskIdTruthy ctx = some tid) :
    ∃ pre st, (runFallback env ctx).events = pre ++ [Event.status tid (ctxIdFallback ctx tid) true st] ∧
      ∀ e ∈ pre, preEvent tid e := by
  unfold runFallback
  cases hm : mapSkillToPrompt ctx with
  | error e =>
    refine ⟨[Event.message (classify e).1], errStateOf (classify e).2, ?_, ?_⟩
    · simp [errorEvents_eq h]
    · intro ev hev
      rw [List.mem_singleton] at hev
      subst hev
      exact Or.inr ⟨_, rfl⟩
  | ok p =>
    cases hr : env.adkRaise with
    | some e =>
      refine ⟨createEvents ctx ++ (env.adkChunks.filter (fun s => !(s == ""))).map Event.message
              ++ [Event.message (classify e).1], errStateOf (classify e).2, ?_, ?_⟩
      · simp [errorEvents_eq h, List.append_assoc]
      · intro ev hev
        rcases List.mem_append.mp hev with hev | hev
        · rcases List.mem_append.mp hev with hev | hev
          · exact createEvents_pre h ev hev
          · exact mapMessage_pre tid _ ev hev
        · rw [List.mem_singleton] at hev
          subst hev
          exact Or.inr ⟨_, rfl⟩
    | none =>
      refine ⟨createEvents ctx ++ (env.adkChunks.filter (fun s => !(s == ""))).map Event.message
              ++ (if (((env.adkChunks.filter (fun s => !(s == ""))).getLast?).getD "") = ""
                  then [Event.message emptyResponseMsg] else []), .completed, ?_, ?_⟩
      · simp [finalCompleted_eq h, List.append_assoc]
      · intro ev hev
        rcases List.mem_append.mp hev with hev | hev
        · rcases List.mem_append.mp hev with hev | hev
          · exact createEvents_pre h ev hev
          · exact mapMessage_pre tid _ ev hev
        · exact ifMessage_pre tid _ _ ev hev

theorem execute_shape (env : Env) (ctx : RequestContext) {tid : String}
    (h : taskIdTruthy ctx = some tid) :
    ∃ pre st, (execute env ctx).events = pre ++ [Event.status tid (ctxIdFallback ctx tid) true st] ∧
      ∀ e ∈ pre, preEvent tid e := by
  unfold execute
  cases hs : extractSkillName ctx with
  | none => exact runFallback_shape env ctx h
  | some sv =>
    cases hn : env.nativeAvailable with
    | false => simpa using runFallback_shape env ctx h
    | true =>
      simp only [if_true]
      rcases executeNativeSkill_cases env ctx sv (extractUserId ctx) with hf | ⟨p, r, hpr⟩
      · rw [hf]
        exact runFallback_shape env ctx h
      · rw [hpr]
        rcases runRegistered_shape ctx p r with ⟨e, he⟩ | ⟨txt, ht⟩
        · rw [he]
          refine ⟨createEvents ctx ++ [Event.message (classify e).1], errStateOf (classify e).2, ?_, ?_⟩
          · simp [errorEvents_eq h, List.append_assoc]
          · intro ev hev
            rcases List.mem_append.mp hev with hev | hev
            · exact createEvents_pre h ev hev
            · rw [List.mem_singleton] at hev
              subst hev
              exact Or.inr ⟨_, rfl⟩
        · rw [ht]
          refine ⟨createEvents ctx ++ [Event.message txt], .completed, ?_, ?_⟩
          · simp [finalCompleted_eq h, List.append_assoc]
          · intro ev hev
            rcases List.mem_append.mp hev with hev | hev
            · exact createEvents_pre h ev hev
            · rw [List.mem_singleton] at hev
              subst hev
              exact Or.inr ⟨_, rfl⟩

theorem filter_isFinal_none {l : List Event} (h : ∀ e ∈ l, Event.isFinal e = false) :
    l.filter Event.isFinal = [] := by
  induction l with
  | nil => rfl
  | cons a t ih =>
    rw [List.filter_cons, h a (List.mem_cons_self a t)]
    simp only [Bool.false_eq_true, if_false]
    exact ih (fun b hb => h b (List.mem_cons_of_mem a hb))

theorem shape_finalCount {tid : String} {pre : List Event} {x : Event}
    (hx : x.isFinal = true) (hpre : ∀ e ∈ pre, preEvent tid e) :
    finalCount (pre ++ [x]) = 1 := by
  unfold finalCount
  rw [List.filter_append, filter_isFinal_none (fun e he => preEvent_not_final (hpre e he))]
  simp [List.filter, hx]

/-
  Concrete fixtures used by witnesses and counterexamples.
-/

/-- An environment with native skills importable, a skill oracle that returns
a displayable result, and an ADK agent that streams nothing and raises
nothing. -/
def envBase : Env :=
  { nativeAvailable := true, skillRun := fun _ _ => .ok "ok", adkChunks := [], adkRaise := none }

/-- A request with task id t1 and nothing else. -/
def ctxT1 : RequestContext :=
  { message := none, taskId := some "t1", contextId := none }

/-- A request invoking the registered native skill retrieve_user_profile. -/
def ctxNative : RequestContext :=
  { message := some { metadata := some [("skill", .str "retrieve_user_profile"), ("user_id", .str "u1")],
                      parts := [.text "mostrar"] },
    taskId := some "t1", contextId := none }

/-- A request whose skillId is known neither to the native registry nor to the
fallback prompt table. -/
def ctxBogus : RequestContext :=
  { message := some { metadata := some [("skill", .str "bogus")], parts := [.text "oi"] },
    taskId := some "t9", contextId := none }

/-- A plain chat request: no skill in the metadata. -/
def ctxChat : RequestContext :=
  { message := some { metadata := some [("user_id", .str "u1")], parts := [.text "olá"] },
    taskId := some "t3", contextId := none }

/-- An environment whose fallback agent streams one chunk. -/
def envChat : Env :=
  { nativeAvailable := true, skillRun := fun _ _ => .ok "ok",
    adkChunks := ["resposta"], adkRaise := none }

/-- A save_user_profile invocation with no profile_data in the metadata. -/
def ctxSaveNoData : RequestContext :=
  { message := some { metadata := some [("skill", .str "save_user_profile"), ("user_id", .str "u1")],
                      parts := [.text "salvar"] },
    taskId := some "t7", contextId := none }

/-- A native-skill request whose caller supplies a contextId distinct from the
task id. -/
def ctxSplit : RequestContext :=
  { message := some { metadata := some [("skill", .str "retrieve_user_profile"), ("user_id", .str "u1")],
                      parts := [.text "perfil"] },
    taskId := some "t1", contextId := some "c1" }

/-
  C1: exactly one final event per task, and it is last.
-/

/-- C1 counterexample: cancel on task t1 emits its unique final = true event
(the canceled status update) and then one more Message, so the final event is
not the last event emitted for the task, contradicting the claim for the
cancel-emitted stream. -/
theorem C1_counterexample :
    cancel ctxT1 = [Event.status "t1" "t1" true .canceled, Event.message cancelSuccessMsg] ∧
    finalCount (cancel ctxT1) = 1 ∧
    (cancel ctxT1).getLast? = some (Event.message cancelSuccessMsg) ∧
    (Event.message cancelSuccessMsg).isFinal = false :=
  ⟨rfl, rfl, rfl, rfl⟩

/-- C1 (amended): for every request carrying a task id, the stream emitted by
execute contains exactly one final = true event and it is the last event;
cancel also emits exactly one final = true event, but follows it with the
confirmation Message, so in the cancel path the final event is the
second-to-last event rather than the last. -/
theorem C1_exactly_one_final_amended :
    (∀ (env : Env) (ctx : RequestContext) (tid : String), taskIdTruthy ctx = some tid →
      finalCount (execute env ctx).events = 1 ∧
      ∃ e, (execute env ctx).events.getLast? = some e ∧ e.isFinal = true) ∧
    (∀ (ctx : RequestContext) (tid : String), taskIdTruthy ctx = some tid →
      finalCount (cancel ctx) = 1 ∧
      (cancel ctx).getLast? = some (Event.message cancelSuccessMsg) ∧
      (Event.message cancelSuccessMsg).isFinal = false) := by
  constructor
  · intro env ctx tid h
    obtain ⟨pre, st, hev, hpre⟩ := execute_shape env ctx h
    rw [hev]
    refine ⟨shape_finalCount rfl hpre, ?_⟩
    exact ⟨_, List.getLast?_concat pre, rfl⟩
  · intro ctx tid h
    unfold cancel
    rw [h]
    exact ⟨rfl, rfl, rfl⟩

/-- C1 witness: the execute part at a concrete native request and the cancel
part at a concrete task id, both hypotheses discharged by rfl. -/
theorem C1_witness :
    finalCount (execute envBase ctxNative).events = 1 ∧ finalCount (cancel ctxT1) = 1 :=
  ⟨(C1_exactly_one_final_amended.1 envBase ctxNative "t1" rfl).1,
   (C1_exactly_one_final_amended.2 ctxT1 "t1" rfl).1⟩

/-
  C2: idempotence of cancel.
-/

/-- C2 counterexample: cancel consults no task state, so calling it twice on
the same task emits the terminal canceled event twice (two final events in
the combined emission), and — for the same reason — cancel called on a task
that is already completed still emits a new canceled event (the emission is
nonempty no matter what state the task is in). -/
theorem C2_counterexample :
    finalCount (cancel ctxT1 ++ cancel ctxT1) = 2 ∧ cancel ctxT1 ≠ [] := by
  constructor
  · rfl
  · intro hc
    exact List.noConfusion hc

/-- C2 (amended): cancel is unconditional and stateless: every call with a
(truthy) task id emits exactly a final StatusUpdate{canceled} followed by the
confirmation Message, regardless of the task's current state — it neither
reads nor writes stored task state — and a call without a task id emits only
the confirmation Message. -/
theorem C2_cancel_unconditional_amended :
    (∀ (ctx : RequestContext) (tid : String), taskIdTruthy ctx = some tid →
      cancel ctx = [Event.status tid (ctxIdFallback ctx tid) true .canceled,
                    Event.message cancelSuccessMsg]) ∧
    (∀ ctx : RequestContext, taskIdTruthy ctx = none →
      cancel ctx = [Event.message cancelSuccessMsg]) := by
  constructor
  · intro ctx tid h
    unfold cancel
    rw [h]
    rfl
  · intro ctx h
    unfold cancel
    rw [h]
    rfl

/-- C2 witness: both conjuncts applied at concrete requests. -/
theorem C2_witness :
    cancel ctxT1 = [Event.status "t1" "t1" true .canceled, Event.message cancelSuccessMsg] ∧
    cancel { message := none, taskId := none, contextId := none } = [Event.message cancelSuccessMsg] :=
  ⟨C2_cancel_unconditional_amended.1 ctxT1 "t1" rfl,
   C2_cancel_unconditional_amended.2 { message := none, taskId := none, contextId := none } rfl⟩

/-
  C3: save / get round-trip.
-/

theorem rowToTask_none (r : Row) : rowToTask r = none := by
  unfold rowToTask
  cases parseTaskState r.state with
  | none => rfl
  | some st => rfl

theorem getTask_always_none (db : List Row) (tid : String) : getTask db tid = none := by
  unfold getTask getTaskR
  cases db.find? (fun r => r.task_id == tid) with
  | none => rfl
  | some r => exact rowToTask_none r

/-- C3 (code bug): saving any task and loading it back by its id yields None,
never an equivalent record: get builds the Task from the row as
Task(id=..., state=..., request=..., metadata=...), without the required
contextId and status fields of the a2a Task model (and with state / request,
which are not fields of it), so the construction always fails validation, the
exception is swallowed by get's except clause, and None is returned. -/
theorem C3_roundtrip_broken (db : List Row) (t : A2ATask) :
    getTask (saveTask db t) t.id = none :=
  getTask_always_none (saveTask db t) t.id

/-
  C4 / C5: routing determinism and the fallback path.
-/

theorem nativeDispatch_registered (env : Env) (ctx : RequestContext) (user : String)
    {s : String} (h : isRegisteredName s) :
    ∃ pr, nativeDispatch env ctx s user = some pr := by
  rcases h with rfl | rfl | rfl | rfl | rfl | rfl <;> exact ⟨_, rfl⟩

theorem nativeDispatch_unregistered (env : Env) (ctx : RequestContext) (user : String)
    {s : String} (h : ¬ isRegisteredName s) :
    nativeDispatch env ctx s user = none := by
  unfold isRegisteredName at h
  push_neg at h
  obtain ⟨h1, h2, h3, h4, h5, h6⟩ := h
  unfold nativeDispatch
  rw [if_neg h1, if_neg h2, if_neg (not_or.mpr ⟨h3, h4⟩), if_neg h5, if_neg h6]

theorem executeNativeSkill_fellThrough (env : Env) (ctx : RequestContext) (user : String)
    {sv : JVal} (h : ∀ s, sv = .str s → ¬ isRegisteredName s) :
    executeNativeSkill env ctx sv user = .fellThrough := by
  cases sv with
  | str s =>
    have hmatch : executeNativeSkill env ctx (.str s) user
        = match nativeDispatch env ctx s user with
          | some (precheck, run) => runRegistered ctx precheck run
          | none => NativeOutcome.fellThrough := rfl
    rw [hmatch, nativeDispatch_unregistered env ctx user (h s rfl)]
  | null => rfl
  | bool b => rfl
  | num n => rfl
  | arr xs => rfl
  | obj fs => rfl

theorem execute_native_step (env : Env) (ctx : RequestContext) {sv : JVal}
    (hav : env.nativeAvailable = true) (hsk : extractSkillName ctx = some sv) :
    execute env ctx
      = match executeNativeSkill env ctx sv (extractUserId ctx) with
        | .success evs =>
          { events := evs, fallbackInvoked := false, nativeHandled := some (skillRenderName sv) }
        | .raised evs e =>
          { events := evs ++ errorEvents ctx e, fallbackInvoked := false,
            nativeHandled := some (skillRenderName sv) }
        | .fellThrough => runFallback env ctx := by
  unfold execute
  rw [hsk, hav]
  rfl

/-- C4 (confirmed): for every request whose metadata carries a skillId that is
registered as a native skill (and with the native skills importable), the
native branch for that skill services the request and the ADK fallback
handler is never invoked — in particular, when the native branch raises after
having emitted events, the exception goes to the error handlers, never to the
fallback. -/
theorem C4_native_routing (env : Env) (ctx : RequestContext) (s : String)
    (hav : env.nativeAvailable = true)
    (hsk : extractSkillName ctx = some (.str s))
    (hreg : isRegisteredName s) :
    (execute env ctx).fallbackInvoked = false ∧ (execute env ctx).nativeHandled = some s := by
  obtain ⟨pr, hpr⟩ := nativeDispatch_registered env ctx (extractUserId ctx) hreg
  obtain ⟨p1, p2⟩ := pr
  have hmatch : executeNativeSkill env ctx (.str s) (extractUserId ctx)
      = runRegistered ctx p1 p2 := by
    have hdef : executeNativeSkill env ctx (.str s) (extractUserId ctx)
        = match nativeDispatch env ctx s (extractUserId ctx) with
          | some (precheck, run) => runRegistered ctx precheck run
          | none => NativeOutcome.fellThrough := rfl
    rw [hdef, hpr]
  rw [execute_native_step env ctx hav hsk, hmatch]
  rcases runRegistered_shape ctx p1 p2 with ⟨e, he⟩ | ⟨txt, ht⟩
  · rw [he]
    exact ⟨rfl, rfl⟩
  · rw [ht]
    exact ⟨rfl, rfl⟩

/-- C4 witness: the theorem applied to a concrete retrieve_user_profile
request. -/
theorem C4_witness :
    (execute envBase ctxNative).fallbackInvoked = false ∧
    (execute envBase ctxNative).nativeHandled = some "retrieve_user_profile" :=
  C4_native_routing envBase ctxNative "retrieve_user_profile" rfl rfl (by decide)

/-- C5 counterexample: a request with skillId "bogus" — known neither to the
native registry nor to the fallback prompt table — never reaches the fallback
handler: _map_skill_to_prompt raises SkillNotFoundError before the ADK agent
is invoked, and the task terminates with a final failed status, not
completed. -/
theorem C5_counterexample :
    (execute envBase ctxBogus).fallbackInvoked = false ∧
    (execute envBase ctxBogus).events =
      [Event.message (skillUnavailableMsg "bogus"), Event.status "t9" "t9" true .failed] :=
  ⟨rfl, rfl⟩

theorem runFallback_ok (env : Env) (ctx : RequestContext) (tid : String)
    (h : taskIdTruthy ctx = some tid) (hr : env.adkRaise = none)
    (hp : ∃ p, mapSkillToPrompt ctx = .ok p) :
    runFallback env ctx =
      { events := [Event.task tid tid .working]
          ++ (env.adkChunks.filter (fun s => !(s == ""))).map Event.message
          ++ (if (((env.adkChunks.filter (fun s => !(s == ""))).getLast?).getD "") = ""
              then [Event.message emptyResponseMsg] else [])
          ++ [Event.status tid (ctxIdFallback ctx tid) true .completed],
        fallbackInvoked := true, nativeHandled := none } := by
  obtain ⟨p, hpe⟩ := hp
  unfold runFallback
  rw [hpe, hr, createEvents_eq h, finalCompleted_eq h]

/-- C5 (amended): for every request carrying a task id whose skillId is
absent, or is not serviced natively (unregistered or natives unavailable) but
maps to a known fallback prompt, the ADK fallback handler is invoked, every
truthy chunk it streams becomes a Message event, and the task finishes with a
terminal StatusUpdate{completed} when the stream ends — preceded by the
empty-response apology Message when no chunk was produced.  (A skillId
unknown to both tables instead raises SkillNotFoundError and the task ends
failed without the fallback, per the counterexample.) -/
theorem C5_fallback_amended (env : Env) (ctx : RequestContext) (tid : String)
    (h : taskIdTruthy ctx = some tid)
    (hr : env.adkRaise = none)
    (hn : (extractSkillName ctx).elim True
          (fun sv => env.nativeAvailable = false ∨ ∀ s, sv = .str s → ¬ isRegisteredName s))
    (hp : ∃ p, mapSkillToPrompt ctx = .ok p) :
    (execute env ctx).fallbackInvoked = true ∧
    (execute env ctx).events =
      [Event.task tid tid .working]
      ++ (env.adkChunks.filter (fun s => !(s == ""))).map Event.message
      ++ (if (((env.adkChunks.filter (fun s => !(s == ""))).getLast?).getD "") = ""
          then [Event.message emptyResponseMsg] else [])
      ++ [Event.status tid (ctxIdFallback ctx tid) true .completed] := by
  have hfb : execute env ctx = runFallback env ctx := by
    unfold execute
    cases hs : extractSkillName ctx with
    | none => rfl
    | some sv =>
      rw [hs] at hn
      simp only [Option.elim] at hn
      show (if env.nativeAvailable then
              match executeNativeSkill env ctx sv (extractUserId ctx) with
              | .success evs =>
                { events := evs, fallbackInvoked := false, nativeHandled := some (skillRenderName sv) }
              | .raised evs e =>
                { events := evs ++ errorEvents ctx e, fallbackInvoked := false,
                  nativeHandled := some (skillRenderName sv) }
              | .fellThrough => runFallback env ctx
            else runFallback env ctx) = runFallback env ctx
      rcases hn with hf | hu
      · rw [hf]
        simp
      · cases hnn : env.nativeAvailable with
        | false => simp
        | true =>
          rw [executeNativeSkill_fellThrough env ctx (extractUserId ctx) hu]
          simp
  rw [hfb, runFallback_ok env ctx tid h hr hp]
  exact ⟨rfl, rfl⟩

/-- C5 witness: the theorem applied to a concrete no-skill chat request whose
agent streams one chunk. -/
theorem C5_witness :
    (execute envChat ctxChat).fallbackInvoked = true :=
  (C5_fallback_amended envChat ctxChat "t3" rfl rfl True.intro ⟨none, rfl⟩).1

/-
  C6: totality and uniformity of the error classification.
-/

/-- C6 (confirmed): the classifier (the except-chain dispatch) is a total
function on exceptions — it never throws, being pure — and for every request
carrying a task id, the handler an exception is dispatched to emits exactly
one human-readable Message followed by exactly one final StatusUpdate whose
state is failed or input_required; an unrecognized exception type gets the
default (Internal) handling: the generic message and terminal state failed. -/
theorem C6_classifier_total (e : PyExc) (ctx : RequestContext) (tid : String)
    (h : taskIdTruthy ctx = some tid) :
    errorEvents ctx e = [Event.message (classify e).1,
      Event.status tid (ctxIdFallback ctx tid) true (errStateOf (classify e).2)] ∧
    (errStateOf (classify e).2 = .failed ∨ errStateOf (classify e).2 = .input_required) ∧
    (∀ m, classify (PyExc.other m) = (genericErrorMsg, "failed") ∧ errStateOf "failed" = .failed) := by
  refine ⟨errorEvents_eq h e, ?_, ?_⟩
  · unfold errStateOf
    split
    · exact Or.inl rfl
    · exact Or.inr rfl
  · intro m
    exact ⟨rfl, rfl⟩

/-- C6 witness: an unrecognized exception at a concrete request emits exactly
the generic message and one final failed status update. -/
theorem C6_witness :
    errorEvents ctxT1 (PyExc.other "boom")
      = [Event.message genericErrorMsg, Event.status "t1" "t1" true TaskState.failed] :=
  (C6_classifier_total (PyExc.other "boom") ctxT1 "t1" rfl).1

/-
  C7: missing required fields.
-/

theorem execNative_save_nodata (env : Env) (ctx : RequestContext) (user : String)
    (hpd : (profileData ctx).truthy = false) :
    executeNativeSkill env ctx (.str "save_user_profile") user
      = .raised (createEvents ctx) (.nameErr "ValidationError") := by
  have hmatch : executeNativeSkill env ctx (.str "save_user_profile") user
      = match nativeDispatch env ctx "save_user_profile" user with
        | some (precheck, run) => runRegistered ctx precheck run
        | none => NativeOutcome.fellThrough := rfl
  have hd : nativeDispatch env ctx "save_user_profile" user
      = some ((if (profileData ctx).truthy then none else some (.nameErr "ValidationError")),
              env.skillRun "save_user_profile" user) := by
    unfold nativeDispatch
    rw [if_neg (by decide), if_pos rfl]
  rw [hmatch, hd, hpd]
  rfl

theorem execNative_update_nocontent (env : Env) (ctx : RequestContext) (user : String)
    (hct : updateContent ctx = "") :
    executeNativeSkill env ctx (.str "update_state") user
      = .raised (createEvents ctx) (.nameErr "ValidationError") := by
  have hmatch : executeNativeSkill env ctx (.str "update_state") user
      = match nativeDispatch env ctx "update_state" user with
        | some (precheck, run) => runRegistered ctx precheck run
        | none => NativeOutcome.fellThrough := rfl
  have hd : nativeDispatch env ctx "update_state" user
      = some ((if updateContent ctx = "" then some (.nameErr "ValidationError") else none),
              env.skillRun "update_state" user) := by
    unfold nativeDispatch
    rw [if_neg (by decide), if_neg (by decide), if_neg (by decide), if_neg (by decide), if_pos rfl]
  rw [hmatch, hd, hct]
  rfl

/-- C7 counterexample: save_user_profile invoked with no profile_data
terminates in state failed (via the generic error handler — the raise names
ValidationError, which executor.py never imports, so a NameError is raised),
not in state input_required as the claim requires. -/
theorem C7_counterexample :
    (execute envBase ctxSaveNoData).events =
      [Event.task "t7" "t7" .working, Event.message genericErrorMsg,
       Event.status "t7" "t7" true .failed] ∧
    TaskState.failed ≠ TaskState.input_required := by
  constructor
  · rfl
  · decide

/-- C7 (amended): a request whose operation is missing required fields
(save_user_profile with no truthy profile_data, or update_state with no
content) fails before the skill executes, but the failure is handled by the
generic error path — the raise names ValidationError, which executor.py does
not import, so a NameError is raised — and the task terminates in state
failed with the generic error message, not in state input_required. -/
theorem C7_missing_fields_amended (env : Env) (ctx : RequestContext) (tid : String)
    (hav : env.nativeAvailable = true) (h : taskIdTruthy ctx = some tid)
    (hcase : (extractSkillName ctx = some (.str "save_user_profile") ∧ (profileData ctx).truthy = false) ∨
             (extractSkillName ctx = some (.str "update_state") ∧ updateContent ctx = "")) :
    (execute env ctx).events
      = [Event.task tid tid .working, Event.message genericErrorMsg,
         Event.status tid (ctxIdFallback ctx tid) true .failed] := by
  rcases hcase with ⟨hsk, hpd⟩ | ⟨hsk, hct⟩
  · rw [execute_native_step env ctx hav hsk,
        execNative_save_nodata env ctx (extractUserId ctx) hpd]
    show createEvents ctx ++ errorEvents ctx (.nameErr "ValidationError") = _
    rw [createEvents_eq h, errorEvents_eq h]
    rfl
  · rw [execute_native_step env ctx hav hsk,
        execNative_update_nocontent env ctx (extractUserId ctx) hct]
    show createEvents ctx ++ errorEvents ctx (.nameErr "ValidationError") = _
    rw [createEvents_eq h, errorEvents_eq h]
    rfl

/-- C7 witness: the theorem applied to the concrete no-profile_data request. -/
theorem C7_witness :
    (execute envBase ctxSaveNoData).events
      = [Event.task "t7" "t7" .working, Event.message genericErrorMsg,
         Event.status "t7" "t7" true .failed] :=
  C7_missing_fields_amended envBase ctxSaveNoData "t7" rfl rfl (Or.inl ⟨rfl, rfl⟩)

/-
  C8: retention cleanup.
-/

/-- A canceled task row, 8 days old: terminal and older than the default
7-day retention window.  Its state column holds TaskState.canceled.value,
which is what save writes for a canceled task. -/
def canceledRow : Row :=
  { task_id := "t1", state := TaskState.canceled.value, request := .obj [],
    metadata := none, result := none, error := none, createdDaysAgo := 8 }

/-- A completed task row, 8 days old. -/
def completedOldRow : Row :=
  { task_id := "t2", state := TaskState.completed.value, request := .obj [],
    metadata := none, result := none, error := none, createdDaysAgo := 8 }

/-- C8 (code bug): the cleanup DELETE filters on the literal 'cancelled'
(double L) while the stored state of canceled tasks is
TaskState.canceled.value = 'canceled', so a terminal canceled row older than
the retention window is never matched and never removed — while an equally
old completed row is removed and counted — contradicting the claim that
exactly the terminal rows older than the window are deleted. -/
theorem C8_cleanup_misses_canceled :
    TaskState.canceled.isTerminal = true ∧
    canceledRow.state = TaskState.canceled.value ∧
    canceledRow.createdDaysAgo > 7 ∧
    cleanupMatches 7 canceledRow = false ∧
    cleanupMatches 7 completedOldRow = true ∧
    cleanupOldTasks 7 [canceledRow, completedOldRow] = ([canceledRow], 1) := by
  refine ⟨rfl, rfl, by decide, rfl, rfl, rfl⟩

/-
  C9: one contextId per task.
-/

/-- C9 counterexample: a request with taskId "t1" and contextId "c1": the
task-creation event carries contextId "t1" while the final status update
carries contextId "c1" — two different contextId values inside one task's
stream. -/
theorem C9_counterexample :
    (execute envBase ctxSplit).events.map Event.ctxOf = [some "t1", none, some "c1"] ∧
    ("t1" : String) ≠ "c1" := by
  constructor
  · rfl
  · decide

/-- C9 (amended): status-update events (including cancel's) carry
contextId = request contextId, falling back to the taskId when it is absent
or empty, while the task-creation event always carries contextId = taskId;
hence every event of a task carries the same contextId (the taskId) precisely
when the request supplies no contextId distinct from the taskId. -/
theorem C9_contextId_amended (env : Env) (ctx : RequestContext) (tid : String)
    (h : taskIdTruthy ctx = some tid)
    (hc : ctx.contextId = none ∨ ctx.contextId = some tid) :
    ∀ e ∈ (execute env ctx).events ++ cancel ctx, e.ctxOf = none ∨ e.ctxOf = some tid := by
  have hcid : ctxIdFallback ctx tid = tid := by
    unfold ctxIdFallback
    rcases hc with hc | hc
    · rw [hc]
    · rw [hc]
      show (if tid = "" then tid else tid) = tid
      split <;> rfl
  intro e he
  rcases List.mem_append.mp he with he | he
  · obtain ⟨pre, st, hev, hpre⟩ := execute_shape env ctx h
    rw [hev] at he
    rcases List.mem_append.mp he with hp | hl
    · exact preEvent_ctx (hpre e hp)
    · rw [List.mem_singleton] at hl
      subst hl
      right
      show some (ctxIdFallback ctx tid) = some tid
      rw [hcid]
  · unfold cancel at he
    rw [h] at he
    rcases List.mem_append.mp he with hs | hm
    · rw [List.mem_singleton] at hs
      subst hs
      right
      show some (ctxIdFallback ctx tid) = some tid
      rw [hcid]
    · rw [List.mem_singleton] at hm
      subst hm
      exact Or.inl rfl

/-- C9 witness: the theorem applied at a concrete native request (no caller
contextId) and a concrete event of its stream. -/
theorem C9_witness :
    (Event.task "t1" "t1" TaskState.working).ctxOf = none ∨
    (Event.task "t1" "t1" TaskState.working).ctxOf = some "t1" :=
  C9_contextId_amended envBase ctxNative "t1" rfl (Or.inl rfl)
    (Event.task "t1" "t1" TaskState.working) (by decide)

/-
  C10: get never raises.
-/

/-- A row whose state string parses to no TaskState member, making the
row-to-Task conversion fail. -/
def rowUnknownState : Row :=
  { task_id := "t9", state := "bogus-state", request := .obj [], metadata := none,
    result := none, error := none, createdDaysAgo := 0 }

/-- C10 (confirmed): get returns None when the SELECT raises, when no row with
the id exists, and when the row-to-Task conversion fails; it returns a Task
value only when the conversion itself succeeded.  (The body of get is one
try/except returning None on every failure; only the pool acquisition on the
line before the try is outside this guarantee.) -/
theorem C10_get_total (mErr : String) :
    getTaskR (.err mErr) = none ∧
    getTaskR (.ok none) = none ∧
    (∀ r : Row, rowToTask r = none → getTaskR (.ok (some r)) = none) ∧
    (∀ (r : Row) (t : A2ATask), getTaskR (.ok (some r)) = some t → rowToTask r = some t) := by
  refine ⟨rfl, rfl, ?_, ?_⟩
  · intro r hr
    exact hr
  · intro r t ht
    exact ht

/-- C10 witness: a failed conversion at a concrete row yields None. -/
theorem C10_witness : getTaskR (.ok (some rowUnknownState)) = none :=
  (C10_get_total "connection refused").2.2.1 rowUnknownState rfl

end NaiA2A
